import Mathlib

/-!
Verification of the Lightning Webstore core (src/app.py) against its
natural-language specification.

The Flask application in src/app.py is shallowly embedded below.  External
collaborators (the `LNDClient` REST wrapper from `lnd_client`, the Polar
locator from `polar_detect`, the `qrcode` image library and the display
templates) are represented at the call boundary: each node call is passed in
as an explicit result value (`Except String _` models a Python call that
either returns a dict or raises an exception whose `str(e)` is the carried
message), and the image library is an arbitrary pure rendering function.
Byte strings are `List Nat` with every element `< 256`.
-/

/-! ## Catalog (src/app.py lines 41-46) -/

/-- Entry of the PRODUCTS list loaded from products.json. -/
structure Product where
  id : String
  name : String
  price : Nat
  description : String
deriving DecidableEq, Repr

/-- Embedding of `get_product` (src/app.py lines 41-46): scan the PRODUCTS
list in order and return the first product whose "id" equals `product_id`,
or `None` when the loop finishes without a match. -/
def get_product (products : List Product) (product_id : String) : Option Product :=
  match products with
  | [] => none
  | p :: rest => if p.id = product_id then some p else get_product rest product_id

/-! ## check_payment (src/app.py lines 104-112) -/

/-- Fields of the invoice dict returned by `lnd.lookup_invoice` that
check_payment reads.  `settled` is `none` when the dict has no
"settled" key (Python `invoice.get("settled", False)` then yields `False`). -/
structure InvoiceSnapshot where
  settled : Option Bool
deriving DecidableEq, Repr

/-- JSON body produced by the check_payment endpoint: `error = none` models
the absence of the "error" key. -/
structure CheckPaymentResponse where
  settled : Bool
  error : Option String
deriving DecidableEq, Repr

/-- Embedding of `check_payment` (src/app.py lines 104-112).  The argument is
the outcome of `lnd.lookup_invoice(r_hash)`: `.ok` a dict, `.error` the
`str(e)` of a raised exception.  The `try/except Exception` makes the
endpoint a total function into a JSON response. -/
def check_payment (lookupRes : Except String InvoiceSnapshot) : CheckPaymentResponse :=
  match lookupRes with
  | .ok invoice => { settled := invoice.settled.getD false, error := none }
  | .error e => { settled := false, error := some e }

/-! ## node_info (src/app.py lines 124-138) -/

/-- Value of a JSON field that may be either a string or an integer (the LND
REST API reports balances as strings, while the hard default `0` for
"channels" is an integer). -/
inductive JVal where
  | str : String → JVal
  | num : Int → JVal
deriving DecidableEq, Repr

/-- True exactly on string-valued JSON values. -/
def JVal.isStr : JVal → Bool
  | .str _ => true
  | .num _ => false

/-- Fields of the dict returned by `lnd.get_info` that node_info reads;
`none` models a missing key. -/
structure InfoFields where
  alias_ : Option String
  identity_pubkey : Option String
  num_active_channels : Option Nat
  synced_to_chain : Option Bool
deriving DecidableEq, Repr

/-- Fields of the dict returned by `lnd.channel_balance` that node_info
reads; `none` models a missing key. -/
structure BalanceFields where
  local_balance : Option JVal
  balance : Option JVal
deriving DecidableEq, Repr

/-- JSON body produced by the node_info endpoint: either the five-key object
of the success path, or the `{"error": str(e)}` object built by the
`except` branch (which has no other keys). -/
inductive NodeInfoResponse where
  | fields (alias_ pubkey : String) (channels : Nat) (synced : Bool) (balance : JVal)
  | errorOnly (error : String)
deriving DecidableEq, Repr

/-- True exactly when a node_info response carries all five keys
alias/pubkey/channels/synced/balance. -/
def NodeInfoResponse.hasFiveKeys : NodeInfoResponse → Bool
  | .fields _ _ _ _ _ => true
  | .errorOnly _ => false

/-- Balance field of a node_info response, when present. -/
def NodeInfoResponse.balanceField : NodeInfoResponse → Option JVal
  | .fields _ _ _ _ b => some b
  | .errorOnly _ => none

/-- Embedding of `node_info` (src/app.py lines 124-138).  The arguments are
the outcomes of `lnd.get_info()` and `lnd.channel_balance()` in that order;
the first raised exception reaches the `except` branch, which answers
`{"error": str(e)}`.  On the success path each field falls back to a
default with `dict.get`, and the balance uses the chain
`balance.get("local_balance", balance.get("balance", "0"))`. -/
def node_info (getInfoRes : Except String InfoFields)
    (balanceRes : Except String BalanceFields) : NodeInfoResponse :=
  match getInfoRes with
  | .error e => .errorOnly e
  | .ok info =>
    match balanceRes with
    | .error e => .errorOnly e
    | .ok bal =>
        .fields (info.alias_.getD "unknown") (info.identity_pubkey.getD "unknown")
          (info.num_active_channels.getD 0) (info.synced_to_chain.getD false)
          (bal.local_balance.getD (bal.balance.getD (JVal.str "0")))

/-! ## Base64 and hex (the `base64` module and `bytes.hex()` used on
src/app.py lines 59 and 84) -/

/-- Character at index `n` (for `n < 64`) of the standard base64 alphabet
used by Python's `base64.b64encode`/`b64decode`. -/
def b64char (n : Nat) : Char :=
  if n < 26 then Char.ofNat (65 + n)
  else if n < 52 then Char.ofNat (97 + (n - 26))
  else if n < 62 then Char.ofNat (48 + (n - 52))
  else if n = 62 then '+'
  else '/'

/-- Index of a character in the standard base64 alphabet, `none` for
characters outside it. -/
def b64val (c : Char) : Option Nat :=
  if 'A' ≤ c ∧ c ≤ 'Z' then some (c.toNat - 65)
  else if 'a' ≤ c ∧ c ≤ 'z' then some (c.toNat - 97 + 26)
  else if '0' ≤ c ∧ c ≤ '9' then some (c.toNat - 48 + 52)
  else if c = '+' then some 62
  else if c = '/' then some 63
  else none

/-- Standard base64 encoding of a byte sequence (as produced by Python's
`base64.b64encode`): groups of three bytes become four alphabet characters,
a final group of one or two bytes is padded with `=`. -/
def b64encodeList : List Nat → List Char
  | [] => []
  | [a] => [b64char (a / 4), b64char (a % 4 * 16), '=', '=']
  | [a, b] => [b64char (a / 4), b64char (a % 4 * 16 + b / 16), b64char (b % 16 * 4), '=']
  | a :: b :: c :: rest =>
      b64char (a / 4) :: b64char (a % 4 * 16 + b / 16) ::
        b64char (b % 16 * 4 + c / 64) :: b64char (c % 64) :: b64encodeList rest

/-- Standard base64 decoding (the behaviour of Python's `base64.b64decode`
on well-formed input; `none` models the `binascii.Error` exception raised on
malformed input). -/
def b64decodeList : List Char → Option (List Nat)
  | [] => some []
  | c0 :: c1 :: c2 :: c3 :: rest =>
      match b64val c0, b64val c1 with
      | some v0, some v1 =>
        if c2 = '=' then
          if c3 = '=' ∧ rest = [] then some [v0 * 4 + v1 / 16] else none
        else
          match b64val c2 with
          | some v2 =>
            if c3 = '=' then
              if rest = [] then some [v0 * 4 + v1 / 16, v1 % 16 * 16 + v2 / 4] else none
            else
              match b64val c3 with
              | some v3 =>
                match b64decodeList rest with
                | some bs => some ((v0 * 4 + v1 / 16) :: (v1 % 16 * 16 + v2 / 4) ::
                    (v2 % 4 * 64 + v3) :: bs)
                | none => none
              | none => none
          | none => none
      | _, _ => none
  | _ => none

/-- Lowercase hexadecimal digit for `n < 16`, as used by Python's
`bytes.hex()`. -/
def hexDigit (n : Nat) : Char :=
  if n < 10 then Char.ofNat (48 + n) else Char.ofNat (87 + n)

/-- Lowercase hexadecimal encoding of a byte sequence: the behaviour of
Python's `bytes.hex()`, two digits per byte, high nibble first. -/
def hexEncodeList : List Nat → List Char
  | [] => []
  | b :: rest => hexDigit (b / 16) :: hexDigit (b % 16) :: hexEncodeList rest

/-- True on the characters 0-9 and a-f: the alphabet of lowercase
hexadecimal. -/
def isLowerHexChar (c : Char) : Bool :=
  ('0' ≤ c ∧ c ≤ '9') ∨ ('a' ≤ c ∧ c ≤ 'f')

/-! ## QR rendering (src/app.py lines 49-59) -/

/-- Embedding of Python's `str.upper()` on the ASCII payment strings this
application handles: uppercase every character. -/
def pyUpper (s : String) : String := String.mk (s.data.map Char.toUpper)

/-- Visual parameters passed to `qrcode.QRCode` by `generate_qr_base64`. -/
structure QRParams where
  version : Nat
  box_size : Nat
  border : Nat
deriving DecidableEq, Repr

/-- Parameters hard-coded at src/app.py line 51:
`qrcode.QRCode(version=1, box_size=8, border=2)`. -/
def qrFixedParams : QRParams := { version := 1, box_size := 8, border := 2 }

/-- Embedding of `generate_qr_base64` (src/app.py lines 49-59).  The
`qrcode` library together with PNG serialisation is abstracted as a pure
rendering function `render` from the fixed visual parameters and the data
string to the PNG bytes; the function then base64-encodes those bytes
(`base64.b64encode(...).decode("utf-8")`). -/
def generate_qr_base64 (render : QRParams → String → List Nat) (data : String) : String :=
  String.mk (b64encodeList (render qrFixedParams data))

/-- QR image produced during checkout (src/app.py line 87):
`generate_qr_base64(payment_request.upper())`. -/
def checkout_qr (render : QRParams → String → List Nat) (payment_request : String) : String :=
  generate_qr_base64 render (pyUpper payment_request)

/-! ## checkout (src/app.py lines 71-101) -/

/-- Fields of the dict returned by `lnd.add_invoice` that checkout reads. -/
structure AddInvoiceResult where
  payment_request : String
  r_hash : String
deriving DecidableEq, Repr

/-- Possible responses of the checkout route: the 404 "Product not found"
page, the rendered error.html view (carrying `str(e)` and the product), or
the rendered checkout.html payment view. -/
inductive CheckoutResult where
  | notFound
  | errorView (errorMsg : String) (product : Product)
  | paymentView (product : Product) (payment_request : String)
      (r_hash : String) (qr_base64 : String)
deriving DecidableEq, Repr

/-- Message carried by the `binascii.Error` that `base64.b64decode` raises
on malformed input (the exact library text is abstracted as a constant). -/
def b64DecodeErrorMsg : String := "Invalid base64-encoded string"

/-- Embedding of `checkout` (src/app.py lines 71-101).  `add_invoice` is the
boundary call `lnd.add_invoice(amount, memo)`, a function of the two
arguments the route passes; `.error e` models a raised exception with
`str(e) = e`, which the `except Exception` turns into the error view.  The
second component of the result records the (amount, memo) argument pairs of
the `add_invoice` round trips actually performed, in order: the not-found
early return happens before any node call, and the success and failure
paths each perform exactly one call. -/
def checkout (products : List Product) (render : QRParams → String → List Nat)
    (add_invoice : Nat → String → Except String AddInvoiceResult)
    (product_id : String) : CheckoutResult × List (Nat × String) :=
  match get_product products product_id with
  | none => (.notFound, [])
  | some product =>
      let memo := "Webstore: " ++ product.name
      let calls := [(product.price, memo)]
      match add_invoice product.price memo with
      | .error e => (.errorView e product, calls)
      | .ok result =>
          match b64decodeList result.r_hash.data with
          | none => (.errorView b64DecodeErrorMsg product, calls)
          | some bytes =>
              (.paymentView product result.payment_request
                (String.mk (hexEncodeList bytes))
                (checkout_qr render result.payment_request), calls)

/-! ## Startup node configuration (src/app.py lines 28-35) -/

/-- Endpoint of a discovered Polar node: its LND credential directory and
REST host, both derived from the same node. -/
structure NodeEndpoint where
  lnd_dir : String
  rest_host : String
deriving DecidableEq, Repr

/-- Manual default credential directory (src/app.py line 31,
`os.path.expanduser` left as the literal path it expands). -/
def DEFAULT_LND_DIR : String := "~/bootcamp-code/day3/bob"

/-- Manual default REST host (src/app.py line 33). -/
def DEFAULT_REST_HOST : String := "https://localhost:8082"

/-- Modelled from the spec: `polar_detect.auto_detect` is not under src/.
Per the spec's Node Locator contract it discovers a running node matching
the label and returns both of its endpoint fields, or a negative result
when discovery fails, never a partially populated endpoint; the Python
function surfaces this as a `(LND_DIR, REST_HOST)` pair whose components
are both set or both `None`. -/
def auto_detect (discovered : Option NodeEndpoint) : Option String × Option String :=
  match discovered with
  | some e => (some e.lnd_dir, some e.rest_host)
  | none => (none, none)

/-- Embedding of the module-level fallback (src/app.py lines 29-33): each
component of the `auto_detect` result is replaced by its manual default
when it is falsy (Python `if not LND_DIR`, true for `None` and for the
empty string). -/
def resolveConfig (detected : Option String × Option String) : String × String :=
  let lnd_dir := match detected.1 with
    | some s => if s = "" then DEFAULT_LND_DIR else s
    | none => DEFAULT_LND_DIR
  let rest_host := match detected.2 with
    | some s => if s = "" then DEFAULT_REST_HOST else s
    | none => DEFAULT_REST_HOST
  (lnd_dir, rest_host)

/-! ## Concrete fixtures used by witness instantiations -/

/-- Sample catalog entry (the spec's scenario product `{id:"tshirt",
price:1500}`). -/
def tshirtProduct : Product :=
  { id := "tshirt", name := "T-Shirt", price := 1500, description := "A cotton shirt" }

/-- Sample discovered Polar endpoint: both fields coming from one node. -/
def polarBobEndpoint : NodeEndpoint :=
  { lnd_dir := "/home/user/.polar/networks/1/volumes/lnd/bob",
    rest_host := "https://127.0.0.1:8084" }

/-! ## Helper lemmas about the byte-string codecs -/

/-- Decoding inverts the base64 alphabet on indices below 64. -/
theorem b64val_b64char : ∀ n < 64, b64val (b64char n) = some n := by decide

/-- No base64 alphabet character is the padding character. -/
theorem b64char_ne_pad : ∀ n < 64, b64char n ≠ '=' := by decide

/-- Decoding inverts encoding on byte sequences (every element below 256),
matching the `base64.b64decode(base64.b64encode(bs)) == bs` behaviour of
the Python library. -/
theorem b64_roundtrip (bs : List Nat) (h : ∀ b ∈ bs, b < 256) :
    b64decodeList (b64encodeList bs) = some bs := by
  induction bs using b64encodeList.induct with
  | case1 => rfl
  | case2 a =>
      have ha : a < 256 := h a (by simp)
      have hv0 := b64val_b64char (a / 4) (by omega)
      have hv1 := b64val_b64char (a % 4 * 16) (by omega)
      simp [b64encodeList, b64decodeList, hv0, hv1]
      omega
  | case3 a b =>
      have ha : a < 256 := h a (by simp)
      have hb : b < 256 := h b (by simp)
      have hv0 := b64val_b64char (a / 4) (by omega)
      have hv1 := b64val_b64char (a % 4 * 16 + b / 16) (by omega)
      have hv2 := b64val_b64char (b % 16 * 4) (by omega)
      have hne := b64char_ne_pad (b % 16 * 4) (by omega)
      simp [b64encodeList, b64decodeList, hv0, hv1, hv2, hne]
      constructor <;> omega
  | case4 a b c rest ih =>
      have ha : a < 256 := h a (by simp)
      have hb : b < 256 := h b (by simp)
      have hc : c < 256 := h c (by simp)
      have hrest : ∀ x ∈ rest, x < 256 := fun x hx => h x (by simp [hx])
      have hv0 := b64val_b64char (a / 4) (by omega)
      have hv1 := b64val_b64char (a % 4 * 16 + b / 16) (by omega)
      have hv2 := b64val_b64char (b % 16 * 4 + c / 64) (by omega)
      have hv3 := b64val_b64char (c % 64) (by omega)
      have hne2 := b64char_ne_pad (b % 16 * 4 + c / 64) (by omega)
      have hne3 := b64char_ne_pad (c % 64) (by omega)
      simp [b64encodeList, b64decodeList, hv0, hv1, hv2, hv3, hne2, hne3, ih hrest]
      refine ⟨by omega, by omega, by omega⟩

/-- Hex encoding produces two characters per byte. -/
theorem hexEncodeList_length (bs : List Nat) :
    (hexEncodeList bs).length = 2 * bs.length := by
  induction bs with
  | nil => rfl
  | cons b rest ih => simp [hexEncodeList, ih]; ring

/-- Every nibble below 16 renders as a lowercase hexadecimal character. -/
theorem hexDigit_lower : ∀ n < 16, isLowerHexChar (hexDigit n) = true := by decide

/-- Hex encoding of a byte sequence uses only the lowercase hexadecimal
alphabet. -/
theorem hexEncodeList_lower (bs : List Nat) (h : ∀ b ∈ bs, b < 256) :
    ∀ c ∈ hexEncodeList bs, isLowerHexChar c = true := by
  induction bs with
  | nil => intro c hc; simp [hexEncodeList] at hc
  | cons b rest ih =>
      intro c hc
      have hb : b < 256 := h b (by simp)
      simp [hexEncodeList] at hc
      rcases hc with hc | hc | hc
      · exact hc ▸ hexDigit_lower (b / 16) (by omega)
      · exact hc ▸ hexDigit_lower (b % 16) (by omega)
      · exact ih (fun x hx => h x (by simp [hx])) c hc

/-! ## Claim theorems -/

/-- Claim C1: for every outcome of the invoice lookup, check_payment is a
total function into a JSON response (the `try/except Exception` means it
never raises to its caller): on a successful lookup it answers
`{settled: <boolean reported by the node>}` with no error key, and on any
lookup failure (unknown hash, invalid hash, transport error — all raised
exceptions) it answers `{settled: false, error: str(e)}`, non-empty
whenever the exception message is (the lookup failure messages come from
the LND client and per the spec's error taxonomy are descriptive). -/
theorem check_payment_never_raises (res : Except String InvoiceSnapshot)
    (hmsg : ∀ e, res = .error e → e ≠ "") :
    (∀ inv, res = .ok inv →
        check_payment res = { settled := inv.settled.getD false, error := none }) ∧
    (∀ e, res = .error e →
        check_payment res = { settled := false, error := some e } ∧ e ≠ "") := by
  constructor
  · intro inv hres; subst hres; rfl
  · intro e hres; subst hres; exact ⟨rfl, hmsg e rfl⟩

/-- Witness for C1 at the concrete lookup failure "unable to reach LND". -/
theorem check_payment_never_raises_witness :
    check_payment (.error "unable to reach LND") =
      { settled := false, error := some "unable to reach LND" } ∧
    "unable to reach LND" ≠ "" :=
  (check_payment_never_raises (.error "unable to reach LND")
    (by intro e he; cases he; decide)).2 "unable to reach LND" rfl

/-- Claim C2, counterexample: when `lnd.get_info()` raises (here with
message "Connection refused"), node_info answers `{"error": str(e)}`,
which omits all five of the keys alias/pubkey/channels/synced/balance —
so the claim that the endpoint returns all five keys for every outcome of
the underlying node calls is false. -/
theorem node_info_error_omits_fields :
    node_info (.error "Connection refused")
        (.ok { local_balance := none, balance := none }) =
      .errorOnly "Connection refused" ∧
    (node_info (.error "Connection refused")
        (.ok { local_balance := none, balance := none })).hasFiveKeys = false :=
  ⟨rfl, rfl⟩

/-- Claim C2, amended: when both underlying node calls return successfully,
node_info answers an object with all five keys alias/pubkey/channels/
synced/balance, substituting the defaults "unknown"/"unknown"/0/false/"0"
field-by-field for keys missing from the node's dicts; when either
underlying call raises, it instead answers `{error: str(e)}` for the first
exception — still a JSON response rather than a propagated error, but one
that omits the five keys. -/
theorem node_info_field_defaults (gi : Except String InfoFields)
    (cb : Except String BalanceFields) :
    (∀ info bal, gi = .ok info → cb = .ok bal →
        node_info gi cb =
          .fields (info.alias_.getD "unknown") (info.identity_pubkey.getD "unknown")
            (info.num_active_channels.getD 0) (info.synced_to_chain.getD false)
            (bal.local_balance.getD (bal.balance.getD (JVal.str "0"))) ∧
        (node_info gi cb).hasFiveKeys = true) ∧
    (∀ e, gi = .error e → node_info gi cb = .errorOnly e ∧
        (node_info gi cb).hasFiveKeys = false) ∧
    (∀ info e, gi = .ok info → cb = .error e → node_info gi cb = .errorOnly e ∧
        (node_info gi cb).hasFiveKeys = false) := by
  refine ⟨?_, ?_, ?_⟩
  · intro info bal hi hb; subst hi; subst hb; exact ⟨rfl, rfl⟩
  · intro e hi; subst hi; exact ⟨rfl, rfl⟩
  · intro info e hi hb; subst hi; subst hb; exact ⟨rfl, rfl⟩

/-- Witness for the amended C2 on a successful outcome with some keys
missing: the defaults are substituted field-by-field. -/
theorem node_info_field_defaults_witness :
    node_info
        (.ok { alias_ := none, identity_pubkey := some "02abc",
               num_active_channels := none, synced_to_chain := some true })
        (.ok { local_balance := none, balance := some (JVal.str "250000") }) =
      .fields "unknown" "02abc" 0 true (JVal.str "250000") :=
  ((node_info_field_defaults _ _).1 _ _ rfl rfl).1

/-- Claim C3: for a product that is in the catalog, if `lnd.add_invoice`
raises during checkout then the route returns the rendered error view
carrying `str(e)` verbatim together with the product, and the call log
shows exactly one add_invoice round trip (no retry); the exception is
converted into a returned value, neither propagated nor dropped. -/
theorem checkout_surfaces_invoice_failure
    (products : List Product) (render : QRParams → String → List Nat)
    (add_invoice : Nat → String → Except String AddInvoiceResult)
    (product_id : String) (product : Product) (e : String)
    (hp : get_product products product_id = some product)
    (hfail : add_invoice product.price ("Webstore: " ++ product.name) = .error e) :
    checkout products render add_invoice product_id =
      (.errorView e product, [(product.price, "Webstore: " ++ product.name)]) := by
  simp [checkout, hp, hfail]

/-- Witness for C3 on the sample catalog with an unreachable node. -/
theorem checkout_surfaces_invoice_failure_witness :
    checkout [tshirtProduct] (fun _ _ => []) (fun _ _ => .error "LND unreachable") "tshirt" =
      (.errorView "LND unreachable" tshirtProduct, [(1500, "Webstore: T-Shirt")]) :=
  checkout_surfaces_invoice_failure [tshirtProduct] (fun _ _ => [])
    (fun _ _ => .error "LND unreachable") "tshirt" tshirtProduct "LND unreachable" rfl rfl

/-- Claim C4: for a product id absent from the catalog, checkout returns
the 404 "Product not found" result with an empty node-call log — the
payment node is never contacted — and the not-found result is a different
constructor from every error view. -/
theorem checkout_unknown_product_not_found
    (products : List Product) (render : QRParams → String → List Nat)
    (add_invoice : Nat → String → Except String AddInvoiceResult)
    (product_id : String)
    (h : get_product products product_id = none) :
    checkout products render add_invoice product_id = (.notFound, []) ∧
    (∀ msg p, (CheckoutResult.notFound : CheckoutResult) ≠ .errorView msg p) := by
  constructor
  · simp [checkout, h]
  · intro msg p hcontra; cases hcontra

/-- Witness for C4 at the spec's example id "nonexistent-id". -/
theorem checkout_unknown_product_not_found_witness :
    checkout [tshirtProduct] (fun _ _ => []) (fun _ _ => .error "x") "nonexistent-id" =
      (.notFound, []) ∧
    (CheckoutResult.notFound : CheckoutResult) ≠ .errorView "LND unreachable" tshirtProduct :=
  ⟨(checkout_unknown_product_not_found [tshirtProduct] (fun _ _ => [])
      (fun _ _ => .error "x") "nonexistent-id" rfl).1,
   (checkout_unknown_product_not_found [tshirtProduct] (fun _ _ => [])
      (fun _ _ => .error "x") "nonexistent-id" rfl).2 "LND unreachable" tshirtProduct⟩

/-- Claim C5: for every discovery outcome, the resolved (LND_DIR, REST_HOST)
pair is taken either entirely from the discovered node's endpoint (when the
locator reports one, both of whose fields are populated) or entirely from
the fixed manual defaults (when discovery yields nothing) — the two fields
are never mixed from different sources, and an empty discovery never fails
startup. -/
theorem startup_config_never_mixed (d : Option NodeEndpoint)
    (hfull : ∀ e, d = some e → e.lnd_dir ≠ "" ∧ e.rest_host ≠ "") :
    (∀ e, d = some e → resolveConfig (auto_detect d) = (e.lnd_dir, e.rest_host)) ∧
    (d = none → resolveConfig (auto_detect d) = (DEFAULT_LND_DIR, DEFAULT_REST_HOST)) := by
  constructor
  · intro e hd; subst hd
    rcases hfull e rfl with ⟨h1, h2⟩
    simp [resolveConfig, auto_detect, h1, h2]
  · intro hd; subst hd; rfl

/-- Witness for C5 at a concrete discovered Polar endpoint. -/
theorem startup_config_never_mixed_witness :
    resolveConfig (auto_detect (some polarBobEndpoint)) =
      ("/home/user/.polar/networks/1/volumes/lnd/bob", "https://127.0.0.1:8084") :=
  (startup_config_never_mixed (some polarBobEndpoint)
    (by intro e he; cases he; exact ⟨by decide, by decide⟩)).1 polarBobEndpoint rfl

/-- Claim C6: when add_invoice succeeds and the node's r_hash field is the
base64 encoding of a 32-byte hash, checkout surfaces as r_hash exactly the
hexadecimal re-encoding of those bytes, which is 64 characters long and
uses only the lowercase hexadecimal alphabet. -/
theorem checkout_r_hash_lowercase_hex
    (products : List Product) (render : QRParams → String → List Nat)
    (add_invoice : Nat → String → Except String AddInvoiceResult)
    (product_id : String) (product : Product) (pr : String) (bs : List Nat)
    (hp : get_product products product_id = some product)
    (hok : add_invoice product.price ("Webstore: " ++ product.name) =
      .ok { payment_request := pr, r_hash := String.mk (b64encodeList bs) })
    (hlen : bs.length = 32) (hb : ∀ b ∈ bs, b < 256) :
    (checkout products render add_invoice product_id).1 =
      .paymentView product pr (String.mk (hexEncodeList bs)) (checkout_qr render pr) ∧
    (hexEncodeList bs).length = 64 ∧
    (∀ c ∈ hexEncodeList bs, isLowerHexChar c = true) := by
  refine ⟨?_, ?_, hexEncodeList_lower bs hb⟩
  · have hdec : b64decodeList (String.mk (b64encodeList bs)).data = some bs := by
      show b64decodeList (b64encodeList bs) = some bs
      exact b64_roundtrip bs hb
    simp [checkout, hp, hok, hdec]
  · rw [hexEncodeList_length, hlen]

/-- Witness for C6 with the all-zero 32-byte hash, whose base64 encoding is
the given 44-character string. -/
theorem checkout_r_hash_lowercase_hex_witness :
    (checkout [tshirtProduct] (fun _ _ => [])
        (fun _ _ => .ok { payment_request := "lnbc15u1testreq",
                          r_hash := "AAAAAAAAAAAAAAAAAAAAAAAAAAAAAAAAAAAAAAAAAAA=" })
        "tshirt").1 =
      .paymentView tshirtProduct "lnbc15u1testreq"
        (String.mk (hexEncodeList (List.replicate 32 0)))
        (checkout_qr (fun _ _ => []) "lnbc15u1testreq") ∧
    (hexEncodeList (List.replicate 32 0)).length = 64 :=
  ⟨(checkout_r_hash_lowercase_hex [tshirtProduct] (fun _ _ => [])
      (fun _ _ => .ok { payment_request := "lnbc15u1testreq",
                        r_hash := "AAAAAAAAAAAAAAAAAAAAAAAAAAAAAAAAAAAAAAAAAAA=" })
      "tshirt" tshirtProduct "lnbc15u1testreq" (List.replicate 32 0)
      rfl (by rfl) (by rfl) (by decide)).1,
   (checkout_r_hash_lowercase_hex [tshirtProduct] (fun _ _ => [])
      (fun _ _ => .ok { payment_request := "lnbc15u1testreq",
                        r_hash := "AAAAAAAAAAAAAAAAAAAAAAAAAAAAAAAAAAAAAAAAAAA=" })
      "tshirt" tshirtProduct "lnbc15u1testreq" (List.replicate 32 0)
      rfl (by rfl) (by rfl) (by decide)).2.1⟩

/-- Claim C7: the scannable-code pipeline is a pure function of the
uppercased payment_request and the fixed visual parameters
version=1/box_size=8/border=2: the QR image built during checkout is the
base64 PNG of the renderer applied to exactly those constants and the
case-normalized input, so any two payment_request strings that agree after
uppercasing (in particular, the same string encoded twice) yield
byte-identical output. -/
theorem checkout_qr_fixed_params_uppercase
    (render : QRParams → String → List Nat) (s s1 s2 : String)
    (h : pyUpper s1 = pyUpper s2) :
    checkout_qr render s =
      String.mk (b64encodeList
        (render { version := 1, box_size := 8, border := 2 } (pyUpper s))) ∧
    checkout_qr render s1 = checkout_qr render s2 := by
  constructor
  · rfl
  · show generate_qr_base64 render (pyUpper s1) = generate_qr_base64 render (pyUpper s2)
    rw [h]

/-- Witness for C7: a renderer that depends on both the parameters and the
data produces identical output for a payment request and its uppercased
form. -/
theorem checkout_qr_fixed_params_uppercase_witness :
    checkout_qr (fun (p : QRParams) (d : String) => p.box_size :: (d.data.map Char.toNat))
        "lnbc15u1abc" =
      String.mk (b64encodeList
        ((fun (p : QRParams) (d : String) => p.box_size :: (d.data.map Char.toNat))
          { version := 1, box_size := 8, border := 2 } (pyUpper "lnbc15u1abc"))) ∧
    checkout_qr (fun (p : QRParams) (d : String) => p.box_size :: (d.data.map Char.toNat))
        "lnbc15u1abc" =
      checkout_qr (fun (p : QRParams) (d : String) => p.box_size :: (d.data.map Char.toNat))
        "LNBC15U1ABC" :=
  checkout_qr_fixed_params_uppercase
    (fun (p : QRParams) (d : String) => p.box_size :: (d.data.map Char.toNat))
    "lnbc15u1abc" "lnbc15u1abc" "LNBC15U1ABC" (by decide)

/-- Claim C8: get_product is a pure linear scan of the fixed product list:
any product it returns is a member of the list whose id field equals the
requested product_id, and it returns none exactly when no member has that
id (the list itself is passed by value and never modified). -/
theorem get_product_pure_linear_lookup (products : List Product) (product_id : String) :
    (∀ p, get_product products product_id = some p → p ∈ products ∧ p.id = product_id) ∧
    (get_product products product_id = none ↔ ∀ p ∈ products, p.id ≠ product_id) := by
  induction products with
  | nil => simp [get_product]
  | cons q rest ih =>
      by_cases hq : q.id = product_id
      · simp [get_product, hq]
      · constructor
        · intro p hp
          rw [get_product, if_neg hq] at hp
          rcases ih.1 p hp with ⟨hmem, hid⟩
          exact ⟨List.mem_cons_of_mem q hmem, hid⟩
        · rw [get_product, if_neg hq, ih.2]
          simp [hq]

/-- Witness for C8 on the sample catalog. -/
theorem get_product_pure_linear_lookup_witness :
    tshirtProduct ∈ [tshirtProduct] ∧ tshirtProduct.id = "tshirt" :=
  (get_product_pure_linear_lookup [tshirtProduct] "tshirt").1 tshirtProduct rfl

/-- Claim C9: when the invoice lookup succeeds but the returned dict has no
"settled" key, check_payment answers `{settled: false}` with no error key:
a missing settlement field is silently treated as unsettled, not as a
lookup failure. -/
theorem check_payment_missing_settled_field (inv : InvoiceSnapshot)
    (h : inv.settled = none) :
    check_payment (.ok inv) = { settled := false, error := none } := by
  simp [check_payment, h]

/-- Witness for C9 at the invoice dict with no "settled" key. -/
theorem check_payment_missing_settled_field_witness :
    check_payment (.ok { settled := none }) = { settled := false, error := none } :=
  check_payment_missing_settled_field { settled := none } rfl

/-- Claim C10: in a successful node_info response the balance field follows
the fallback chain local_balance, then balance, then the string "0"; in
particular when both keys are absent the reported balance is the string
"0", not an integer. -/
theorem node_info_balance_fallback_chain (info : InfoFields) (bal : BalanceFields) :
    (∀ v, bal.local_balance = some v →
        (node_info (.ok info) (.ok bal)).balanceField = some v) ∧
    (∀ w, bal.local_balance = none → bal.balance = some w →
        (node_info (.ok info) (.ok bal)).balanceField = some w) ∧
    (bal.local_balance = none → bal.balance = none →
        (node_info (.ok info) (.ok bal)).balanceField = some (JVal.str "0") ∧
        (JVal.str "0").isStr = true) := by
  refine ⟨?_, ?_, ?_⟩
  · intro v hv; simp [node_info, NodeInfoResponse.balanceField, hv]
  · intro w hn hw; simp [node_info, NodeInfoResponse.balanceField, hn, hw]
  · intro hn hb; simp [node_info, NodeInfoResponse.balanceField, hn, hb, JVal.isStr]

/-- Witness for C10 at a channel-balance dict with both keys absent. -/
theorem node_info_balance_fallback_chain_witness :
    (node_info
        (.ok { alias_ := none, identity_pubkey := none,
               num_active_channels := none, synced_to_chain := none })
        (.ok { local_balance := none, balance := none })).balanceField =
      some (JVal.str "0") ∧
    (JVal.str "0").isStr = true :=
  (node_info_balance_fallback_chain
    { alias_ := none, identity_pubkey := none,
      num_active_channels := none, synced_to_chain := none }
    { local_balance := none, balance := none }).2.2 rfl rfl
